import Mathlib

/-!
Shallow embedding of two AWS Lambda handlers:
  * src/lambda_function/lambda_function.py  (employee CRUD API over DynamoDB)
  * src/lambda-functions/image-minifier.py  (S3 thumbnail generator)
Python dicts are modelled as association lists that keep insertion order,
DynamoDB Decimal values as rationals, and the DynamoDB table as a list of
items keyed by their "id" attribute.  All definitions are computable and
structurally recursive so that concrete runs reduce inside the kernel.
-/

namespace AwsProjects

/-! JSON values.  Arrays and objects use their own mutually inductive list
types (instead of `List`) so that `jsonDumps` below is accepted by
structural recursion and evaluates by `rfl` on concrete inputs. -/

mutual

inductive JVal where
  | null : JVal
  | jbool (b : Bool) : JVal
  | jstr (s : String) : JVal
  | jint (n : Int) : JVal
  | jdec (d : Rat) : JVal
  | jarr (xs : JArr) : JVal
  | jobj (fs : JObj) : JVal

inductive JArr where
  | nil : JArr
  | cons (v : JVal) (rest : JArr) : JArr

inductive JObj where
  | nil : JObj
  | cons (k : String) (v : JVal) (rest : JObj) : JObj

end

def JObj.ofList : List (String × JVal) → JObj
  | [] => .nil
  | (k, v) :: rest => .cons k v (JObj.ofList rest)

def JArr.ofList : List JVal → JArr
  | [] => .nil
  | v :: rest => .cons v (JArr.ofList rest)

/-- Convenience constructor: JSON object from an association list. -/
def JVal.obj (fs : List (String × JVal)) : JVal := .jobj (JObj.ofList fs)

/-- Convenience constructor: JSON array from a list. -/
def JVal.arrOf (xs : List JVal) : JVal := .jarr (JArr.ofList xs)

/-- One hexadecimal digit, lower case, as produced by Python's json module. -/
def hexDigit (n : Nat) : Char :=
  if n < 10 then Char.ofNat (48 + n) else Char.ofNat (87 + n)

/-- Escaping of a single character inside a JSON string literal, following
Python `json.dumps`: quote, backslash and control characters are escaped
(the `ensure_ascii` escaping of characters above U+007E is not needed here:
every string in this development is ASCII). -/
def jsonEscapeChar (c : Char) : List Char :=
  if c = Char.ofNat 34 then [Char.ofNat 92, Char.ofNat 34]
  else if c = Char.ofNat 92 then [Char.ofNat 92, Char.ofNat 92]
  else if c = Char.ofNat 10 then [Char.ofNat 92, Char.ofNat 110]
  else if c = Char.ofNat 9 then [Char.ofNat 92, Char.ofNat 116]
  else if c = Char.ofNat 13 then [Char.ofNat 92, Char.ofNat 114]
  else if c = Char.ofNat 8 then [Char.ofNat 92, Char.ofNat 98]
  else if c = Char.ofNat 12 then [Char.ofNat 92, Char.ofNat 102]
  else if c.toNat < 32 then
    [Char.ofNat 92, Char.ofNat 117, Char.ofNat 48, Char.ofNat 48,
     hexDigit (c.toNat / 16), hexDigit (c.toNat % 16)]
  else [c]

/-- A JSON string literal: surrounding quotes plus escaped content. -/
def jsonQuote (s : String) : String :=
  String.mk ([Char.ofNat 34] ++ (s.data.map jsonEscapeChar).flatten ++ [Char.ofNat 34])

/-- The two shapes a `Decimal` can take after passing through the
`DecimalEncoder`: a Python `int` or a Python `float`. -/
inductive JNum where
  | jint (n : Int) : JNum
  | jfloat (q : Rat) : JNum
deriving DecidableEq

/-- `DecimalEncoder.default` from lambda_function.py:
`int(obj) if obj % 1 == 0 else float(obj)`.
A `Decimal` is modelled as a rational; `obj % 1 == 0` holds exactly when the
value has no fractional part, i.e. its reduced denominator is 1, and then
`int(obj)` is its numerator.  In the inexact branch `float(obj)` is kept as
the exact rational tagged as a float (IEEE rounding of the float itself is
outside this model). -/
def DecimalEncoder_default (d : Rat) : JNum :=
  if d.den = 1 then .jint d.num else .jfloat d

/-- Rendering of a float produced by `DecimalEncoder`.  Python's `repr` of a
float is not modelled; no theorem in this development depends on this
rendering (every decimal serialized by a claim is exact). -/
def floatRender (q : Rat) : String := toString q

mutual

/-- `json.dumps` with Python's default separators: `", "` between items and
`": "` after keys. -/
def jsonDumps : JVal → String
  | .null => "null"
  | .jbool b => if b then "true" else "false"
  | .jstr s => jsonQuote s
  | .jint n => toString n
  | .jdec d =>
    match DecimalEncoder_default d with
    | .jint n => toString n
    | .jfloat q => floatRender q
  | .jarr xs => "[" ++ dumpArr xs ++ "]"
  | .jobj fs => "\x7b" ++ dumpObj fs ++ "\x7d"

def dumpArr : JArr → String
  | .nil => ""
  | .cons v .nil => jsonDumps v
  | .cons v (.cons w rest) => jsonDumps v ++ ", " ++ dumpArr (.cons w rest)

def dumpObj : JObj → String
  | .nil => ""
  | .cons k v .nil => jsonQuote k ++ ": " ++ jsonDumps v
  | .cons k v (.cons k2 v2 rest) =>
    jsonQuote k ++ ": " ++ jsonDumps v ++ ", " ++ dumpObj (.cons k2 v2 rest)

end

/-! Python dicts and the DynamoDB employees table. -/

/-- A Python dict / DynamoDB item: association list in insertion order. -/
abbrev Item := List (String × JVal)

/-- The employees table: a collection of items keyed by their "id"
attribute (the table schema declares a string hash key named "id"). -/
abbrev Table := List Item

/-- `d[k]` lookup that returns `none` instead of raising `KeyError`. -/
def pyDictGet (d : Item) (k : String) : Option JVal :=
  (d.find? (fun p => p.1 == k)).map (fun p => p.2)

/-- Removal of a key from a dict (used to state Python's merge semantics). -/
def pyDictRemove (d : Item) (k : String) : Item :=
  d.filter (fun p => p.1 != k)

/-- `d[k] = v`: overwrite in place if the key exists (keeping its position,
as Python dicts do), else append. -/
def pyDictSet (d : Item) (k : String) (v : JVal) : Item :=
  if (pyDictGet d k).isSome then
    d.map (fun p => if p.1 == k then (k, v) else p)
  else d ++ [(k, v)]

/-- The string value of an item's "id" attribute, if any.  DynamoDB rejects
items whose declared string key is missing or non-string, so such items can
never be stored; they are unkeyed here. -/
def itemIdStr (it : Item) : Option String :=
  match pyDictGet it "id" with
  | some (.jstr s) => some s
  | _ => none

/-- `table.get_item(Key={"id": id})`: the stored item with that key. -/
def tableGetItem (t : Table) (id : String) : Option Item :=
  t.find? (fun it => itemIdStr it == some id)

/-- `table.put_item(Item=item)`: unconditional overwrite of the item with
the same key, insert otherwise. -/
def tablePutItem (t : Table) (item : Item) : Table :=
  t.filter (fun it => itemIdStr it != itemIdStr item) ++ [item]

/-- `table.delete_item(Key={"id": id})`. -/
def tableDeleteItem (t : Table) (id : String) : Table :=
  t.filter (fun it => itemIdStr it != some id)

/-- `table.update_item(..., UpdateExpression="SET #attr = :value")`:
set one attribute on the item with the given key. -/
def tableUpdateItem (t : Table) (id attr : String) (v : JVal) : Table :=
  t.map (fun it => if itemIdStr it == some id then pyDictSet it attr v else it)

/-- One call against the backing table, recorded for side-effect claims. -/
inductive TCall where
  | scan : TCall
  | getItem (id : String) : TCall
  | putItem (item : Item) : TCall
  | updateItem (id attr : String) (v : JVal) : TCall
  | deleteItem (id : String) : TCall

/-- Write calls are the ones that can change the table. -/
def isWriteCall : TCall → Bool
  | .scan => false
  | .getItem _ => false
  | .putItem _ => true
  | .updateItem _ _ _ => true
  | .deleteItem _ => true

/-- A Python exception escaping a handler (only `EmployeeNotFoundError` and
`ClientError` are caught at the operation boundaries; anything else, such as
`KeyError` from a dict subscript, propagates out of the Lambda). -/
inductive PyError where
  | keyError (k : String) : PyError
  | typeError : PyError
deriving DecidableEq

/-- The HTTP response dict built by `make_response`. -/
structure Response where
  statusCode : Nat
  contentType : String
  body : String
deriving DecidableEq

/-- Result of running one operation: a returned response or an uncaught
exception. -/
inductive Outcome where
  | ok (r : Response) : Outcome
  | raised (e : PyError) : Outcome
deriving DecidableEq

/-- The HTTP status of an outcome, `none` if an exception escaped. -/
def statusOf : Outcome → Option Nat
  | .ok r => some r.statusCode
  | .raised _ => none

/-- Outcome of an operation together with the table state it leaves behind
and the trace of table calls it performed. -/
structure OpResult where
  out : Outcome
  table : Table
  calls : List TCall

/-- `make_response(body, status_code)`:
`{"statusCode": ..., "headers": {"Content-Type": "application/json"},
"body": json.dumps(body, cls=DecimalEncoder)}`. -/
def make_response (body : JVal) (statusCode : Nat) : Response :=
  ⟨statusCode, "application/json", jsonDumps body⟩

/-- A single ASCII apostrophe, used by Python `repr` on strings. -/
def sq : String := String.singleton (Char.ofNat 39)

/-- Python `f"Employee {employee_id!r} not found"`; `repr` of a string
without quote characters is the string wrapped in single quotes (every id
used in this development is quote-free). -/
def notFoundMessage (id : String) : String :=
  "Employee " ++ sq ++ id ++ sq ++ " not found"

/-- `{"error": msg}` bodies produced at the error boundaries. -/
def errObj (msg : String) : JVal := JVal.obj [("error", JVal.jstr msg)]

/-- `get_or_throw`: `table.get_item`, then `if not employee: raise`.
Returns `none` when `EmployeeNotFoundError` would be raised; note that a
present but empty (hence falsy) item also raises, exactly as in Python. -/
def get_or_throw (t : Table) (id : String) : Option Item :=
  match tableGetItem t id with
  | some emp => if emp.isEmpty then none else some emp
  | none => none

/-- `get_employee(employee_id)`.  The backing store itself is modelled as
non-failing, so the `ClientError` → 500 branch is unreachable here. -/
def get_employee (id : String) (t : Table) : OpResult :=
  match get_or_throw t id with
  | some emp => ⟨.ok (make_response (JVal.obj emp) 200), t, [.getItem id]⟩
  | none => ⟨.ok (make_response (errObj (notFoundMessage id)) 404), t, [.getItem id]⟩

/-- `get_employees()`: full scan.  DynamoDB pagination is transparent to the
result (the code concatenates all pages); it is modelled as one scan
returning every stored item. -/
def get_employees (t : Table) : OpResult :=
  ⟨.ok (make_response (JVal.arrOf (t.map JVal.obj)) 200), t, [.scan]⟩

/-- The item written by `create_employee`:
`{"id": employee_id, **employee_data}`.  Python dict-literal semantics: the
"id" key keeps the first position, but a later `"id"` key coming from
`employee_data` overrides the generated value. -/
def putMergeItem (g : String) (data : Item) : Item :=
  ("id", (pyDictGet data "id").getD (JVal.jstr g)) :: pyDictRemove data "id"

/-- `create_employee(employee_data)`; the fresh `str(uuid.uuid4())` is an
explicit argument `g` of the model. -/
def create_employee (g : String) (data : Item) (t : Table) : OpResult :=
  let item := putMergeItem g data
  ⟨.ok (make_response (JVal.obj [("id", JVal.jstr g)]) 201),
   tablePutItem t item, [.putItem item]⟩

/-- `update_employee(employee_id, update_data)`.  The existence check runs
first; the `update_item` call arguments evaluate `update_data["attribute"]`
and then `update_data["value"]`, so a missing key raises `KeyError` before
any write happens, and `KeyError` is not caught (only
`EmployeeNotFoundError` and `ClientError` are).  A non-string attribute name
is rejected by the SDK before the request is sent; that error is likewise
uncaught. -/
def update_employee (id : String) (ud : Item) (t : Table) : OpResult :=
  match get_or_throw t id with
  | none => ⟨.ok (make_response (errObj (notFoundMessage id)) 404), t, [.getItem id]⟩
  | some _ =>
    match pyDictGet ud "attribute" with
    | none => ⟨.raised (.keyError "attribute"), t, [.getItem id]⟩
    | some a =>
      match pyDictGet ud "value" with
      | none => ⟨.raised (.keyError "value"), t, [.getItem id]⟩
      | some v =>
        match a with
        | .jstr s =>
          ⟨.ok (make_response (JVal.obj [(s, v)]) 200),
           tableUpdateItem t id s v, [.getItem id, .updateItem id s v]⟩
        | _ => ⟨.raised .typeError, t, [.getItem id]⟩

/-- `delete_employee(employee_id)`: existence check, delete, 204 with body
`json.dumps(None)`. -/
def delete_employee (id : String) (t : Table) : OpResult :=
  match get_or_throw t id with
  | none => ⟨.ok (make_response (errObj (notFoundMessage id)) 404), t, [.getItem id]⟩
  | some _ =>
    ⟨.ok (make_response JVal.null 204), tableDeleteItem t id,
     [.getItem id, .deleteItem id]⟩

/-! Python string helpers used by both handlers, implemented directly on
character lists with structural recursion (so that they reduce in the
kernel). -/

/-- Python `s.split(sep)` for a one-character separator: never returns an
empty list, keeps empty fields. -/
def splitChar : List Char → Char → List (List Char)
  | [], _ => [[]]
  | c :: rest, sep =>
    if c = sep then [] :: splitChar rest sep
    else
      match splitChar rest sep with
      | [] => [[c]]
      | g :: gs => (c :: g) :: gs

/-- Last element of a list with a default (Python `xs[-1]` on the never
empty result of `split`). -/
def lastD {α : Type} : List α → α → α
  | [], d => d
  | [a], _ => a
  | _ :: b :: rest, d => lastD (b :: rest) d

/-- Worker for Python `str.replace`: scans the haystack left to right; a
positive `skip` counter consumes the remaining characters of a match that
was just replaced, giving Python's non-overlapping semantics. -/
def repAux (pat rep : List Char) : Nat → List Char → List Char
  | _ + 1, [] => []
  | skip + 1, _ :: rest => repAux pat rep skip rest
  | 0, [] => []
  | 0, c :: rest =>
    if !pat.isEmpty && pat.isPrefixOf (c :: rest) then
      rep ++ repAux pat rep (pat.length - 1) rest
    else c :: repAux pat rep 0 rest

/-- Python `hay.replace(pat, rep)` for a nonempty pattern (the only pattern
used by this code is ".jpg"; Python's special case for an empty pattern is
not modelled). -/
def pyReplace (hay pat rep : List Char) : List Char := repAux pat rep 0 hay

/-- Python `s.split("/")` at the string level. -/
def pySplitStr (s : String) (sep : Char) : List String :=
  (splitChar s.data sep).map String.mk

/-- Python `s.startswith(pre)`. -/
def pyStartsWith (s pre : String) : Bool := pre.data.isPrefixOf s.data

/-! The employee API router (`lambda_handler` in lambda_function.py). -/

/-- The parts of the Lambda HTTP event the handler reads: the method and
path from `requestContext.http`, the JSON-parsed request body
(`json.loads(event.get("body", "{}"))`), and the raw event value, which the
"info" route echoes back.  `queryStringParameters` is read but never used by
any route. -/
structure HttpEvent where
  method : String
  path : String
  bodyJson : Item
  raw : JVal

/-- `lambda_handler(event, context)` routing.  Python's flat sequence of
`if` statements is equivalent to this `if .. else if ..` chain: the two GET
routes can only fire when `method == "GET"`, which makes them disjoint from
the POST/PATCH/DELETE tests, so falling through in source order matches this
chain.  The fresh uuid for the POST route is the explicit argument `g`. -/
def lambda_handler (ev : HttpEvent) (g : String) (t : Table) : OpResult :=
  if (pySplitStr ev.path (Char.ofNat 47)).contains "info" then
    ⟨.ok (make_response ev.raw 200), t, []⟩
  else if ev.method == "GET" && ev.path == "/employees" then
    get_employees t
  else if ev.method == "GET" && pyStartsWith ev.path "/employees/" then
    get_employee (lastD (pySplitStr ev.path (Char.ofNat 47)) "") t
  else if ev.method == "POST" && ev.path == "/employees" then
    create_employee g ev.bodyJson t
  else if ev.method == "PATCH" && pyStartsWith ev.path "/employees/" then
    update_employee (lastD (pySplitStr ev.path (Char.ofNat 47)) "") ev.bodyJson t
  else if ev.method == "DELETE" && pyStartsWith ev.path "/employees/" then
    delete_employee (lastD (pySplitStr ev.path (Char.ofNat 47)) "") t
  else
    ⟨.ok (make_response (errObj "Method Not Implemented") 501), t, []⟩

/-! The thumbnail generator (image-minifier.py). -/

/-- A decoded source image: pixel dimensions and the optional EXIF
orientation tag value. -/
structure SrcImage where
  width : Nat
  height : Nat
  exifTag : Option Nat

/-- One `s3.put_object` call: destination, content type, the size of the
canvas written (`final_image`), the size of the resized content pasted onto
it, and the paste offset. -/
structure PutObjectCall where
  bucket : String
  key : String
  contentType : String
  canvas : Nat × Nat
  content : Nat × Nat
  offset : Int × Int
deriving DecidableEq

/-- Image dimensions after the EXIF correction block: orientation 3 rotates
by 180° (dimensions unchanged), 6 and 8 rotate by 270°/90° with
`expand=True` (dimensions swapped); any other or absent tag leaves the image
untouched. -/
def orientedSize : SrcImage → Nat × Nat
  | ⟨w, h, some 3⟩ => (w, h)
  | ⟨w, h, some 6⟩ => (h, w)
  | ⟨w, h, some 8⟩ => (h, w)
  | ⟨w, h, _⟩ => (w, h)

/-- Python tuple comparison `image.size < size`: lexicographic. -/
def pyTupleLt (a b : Nat × Nat) : Bool :=
  a.1 < b.1 || (a.1 == b.1 && a.2 < b.2)

/-- The resize-dimension computation of `resize_image` (lines 36-49).
The float comparison `dest_ratio > source_ratio`, i.e.
`size[0]/size[1] > w/h`, is expressed by cross-multiplication
`size[0]*h > w*size[1]`, and `int(a / float(b))` by natural floor division;
both float computations are exact for the magnitudes a real image can have
(products of pixel dimensions are far below 2^53). -/
def computeResize (imgSize size : Nat × Nat) : Nat × Nat :=
  if pyTupleLt imgSize size then imgSize
  else if size.1 * imgSize.2 > imgSize.1 * size.2 then
    (imgSize.1 * size.2 / imgSize.2, size.2)
  else
    (size.1, imgSize.2 * size.1 / imgSize.1)

/-- The paste offset `((size[0]-new_width)//2, (size[1]-new_height)//2)`;
Python `//` is floor division, hence `Int.fdiv`. -/
def pasteTopLeft (size newSize : Nat × Nat) : Int × Int :=
  (((size.1 : Int) - (newSize.1 : Int)).fdiv 2,
   ((size.2 : Int) - (newSize.2 : Int)).fdiv 2)

/-- `f"thumbnails/{key.split('/')[-1]}".replace(".jpg", ".png")`: the
replacement runs over the whole formatted string and replaces every
occurrence of the substring ".jpg". -/
def dest_key (key : String) : String :=
  String.mk (pyReplace ("thumbnails/".data ++ lastD (splitChar key.data (Char.ofNat 47)) [])
    ".jpg".data ".png".data)

/-- `resize_image(key, source_bucket, size, dest_bucket)`.  The S3 download
and `Image.open` are modelled by the `fetched` argument: `none` means the
`try` block raised (fetch or decode failure), in which case the function
logs and returns `None` without writing anything; `some img` is the decoded
image.  On success it returns the destination key and performs exactly one
`put_object` with content type "image/png", a canvas of exactly `size`, the
resized content and its centered offset. -/
def resize_image (key source_bucket : String) (size : Nat × Nat)
    (dest_bucket : Option String) (fetched : Option SrcImage) :
    Option String × List PutObjectCall :=
  let db := dest_bucket.getD source_bucket
  match fetched with
  | none => (none, [])
  | some img =>
    let isz := orientedSize img
    let ns := computeResize isz size
    let tl := pasteTopLeft size ns
    let dk := dest_key key
    (some dk, [⟨db, dk, "image/png", size, ns, tl⟩])

/-- `lambda_handler(event, context)` of image-minifier.py: calls
`resize_image(key, bucket)` with the default size (120, 160) and default
destination bucket, discards its return value and returns `None`.  The
first component models the handler's own return value. -/
def lambda_handler_image (bucket key : String) (fetched : Option SrcImage) :
    Option String × List PutObjectCall :=
  (none, (resize_image key bucket (120, 160) none fetched).2)

/-! Helper lemmas shared by the claim theorems. -/

/-- Defining equation of `repAux` at skip 0 on a nonempty haystack. -/
lemma repAux_cons (pat rep : List Char) (c : Char) (rest : List Char) :
    repAux pat rep 0 (c :: rest) =
      if !pat.isEmpty && pat.isPrefixOf (c :: rest) then
        rep ++ repAux pat rep (pat.length - 1) rest
      else c :: repAux pat rep 0 rest := rfl

/-- `str.replace` leaves untouched, and moves across, any leading block of
characters none of which can start a match (none equals the pattern's first
character). -/
lemma repAux_prefix_free (pat rep : List Char) (c0 : Char) (pt : List Char)
    (hpat : pat = c0 :: pt) :
    ∀ pre l : List Char, (∀ c ∈ pre, c ≠ c0) →
      repAux pat rep 0 (pre ++ l) = pre ++ repAux pat rep 0 l := by
  intro pre
  induction pre with
  | nil => intro l _; rfl
  | cons c pre ih =>
    intro l hpre
    have hc : c ≠ c0 := hpre c (by simp)
    have hbc : (c0 == c) = false := beq_eq_false_iff_ne.mpr (Ne.symm hc)
    have hnp : pat.isPrefixOf (c :: (pre ++ l)) = false := by
      subst hpat
      simp [List.isPrefixOf, hbc]
    have hrec := ih l (fun d hd => hpre d (by simp [hd]))
    rw [List.cons_append, repAux_cons, hnp, Bool.and_false]
    simp [hrec]

/-- A dict without the key "id" is unchanged by removing "id". -/
lemma pyDictRemove_id_eq_self {d : Item} (h : pyDictGet d "id" = none) :
    pyDictRemove d "id" = d := by
  induction d with
  | nil => rfl
  | cons p d ih =>
    by_cases hk : p.1 == "id"
    · exfalso
      simp [pyDictGet, List.find?, hk] at h
    · have hkf : (p.1 == "id") = false := by simpa using hk
      have hrest : pyDictGet d "id" = none := by
        simpa [pyDictGet, List.find?, hkf] using h
      have ih' : List.filter (fun q => q.1 != "id") d = d := ih hrest
      have hbne : (p.1 != "id") = true := by simp [bne, hkf]
      simp [pyDictRemove, List.filter_cons, hbne, ih']

/-- With no caller-supplied "id", the written item is the generated id
followed by the caller data, in order. -/
lemma putMergeItem_of_no_id {g : String} {data : Item}
    (h : pyDictGet data "id" = none) :
    putMergeItem g data = ("id", JVal.jstr g) :: data := by
  simp [putMergeItem, h, pyDictRemove_id_eq_self h]

/-- Reading back the key just written by `put_item`. -/
lemma tableGetItem_putItem (t : Table) (item : Item) (s : String)
    (hid : itemIdStr item = some s) :
    tableGetItem (tablePutItem t item) s = some item := by
  induction t with
  | nil =>
    simp [tableGetItem, tablePutItem, List.find?, hid]
  | cons it t ih =>
    by_cases hcase : itemIdStr it == itemIdStr item
    · have : tablePutItem (it :: t) item = tablePutItem t item := by
        simp [tablePutItem, List.filter, bne, hcase]
      rw [this, ih]
    · have hne : itemIdStr it ≠ itemIdStr item := by simpa using hcase
      have hkeep : tablePutItem (it :: t) item = it :: tablePutItem t item := by
        simp [tablePutItem, List.filter, bne, hcase]
      have hpred : (itemIdStr it == some s) = false := by
        rw [← hid]
        simpa using hne
      rw [hkeep]
      simpa [tableGetItem, List.find?, hpred] using ih

/-- After `delete_item`, `get_item` on the same key finds nothing. -/
lemma tableGetItem_deleteItem (t : Table) (id : String) :
    tableGetItem (tableDeleteItem t id) id = none := by
  induction t with
  | nil => rfl
  | cons it t ih =>
    by_cases hcase : itemIdStr it == some id
    · simp [tableDeleteItem, List.filter, bne, hcase] at ih ⊢
      exact ih
    · simp [tableDeleteItem, List.filter, bne, hcase] at ih ⊢
      simp only [tableGetItem, List.find?, hcase]
      exact ih

/-- A stored item found by `get_item` is keyed, hence nonempty, hence
truthy: `get_or_throw` returns it rather than raising. -/
lemma get_or_throw_of_getItem {t : Table} {id : String} {emp : Item}
    (h : tableGetItem t id = some emp) : get_or_throw t id = some emp := by
  have h' : t.find? (fun it => itemIdStr it == some id) = some emp := h
  have hp := List.find?_some h'
  have hid : itemIdStr emp = some id := by simpa using hp
  cases emp with
  | nil => simp [itemIdStr, pyDictGet] at hid
  | cons p rest => simp [get_or_throw, h]

/-! Claim theorems. -/

/-- Claim C1, counterexample: the claim asserts that for every source key
the destination key has its extension normalized to ".png", so for key
"photos/a.gif" it would have to be "thumbnails/a.png"; the code only
rewrites the substring ".jpg" and actually produces "thumbnails/a.gif". -/
theorem claim_C1_counterexample :
    dest_key "photos/a.gif" = "thumbnails/a.gif" ∧
    dest_key "photos/a.gif" ≠ "thumbnails/a.png" :=
  ⟨rfl, by decide⟩

/-- Claim C1, amended: the destination key is "thumbnails/" followed by the
last path segment of the source key in which every occurrence of the
substring ".jpg" has been replaced by ".png" (other extensions are left
unchanged); in particular "photos/a.jpg" yields "thumbnails/a.png" and
"photos/a.gif" yields "thumbnails/a.gif". -/
theorem claim_C1_amended :
    (∀ key : String,
      dest_key key = "thumbnails/" ++
        String.mk (pyReplace (lastD (splitChar key.data (Char.ofNat 47)) [])
          ".jpg".data ".png".data)) ∧
    dest_key "photos/a.jpg" = "thumbnails/a.png" ∧
    dest_key "photos/a.gif" = "thumbnails/a.gif" := by
  refine ⟨?_, rfl, rfl⟩
  intro key
  unfold dest_key pyReplace
  rw [repAux_prefix_free ".jpg".data ".png".data (Char.ofNat 46) "jpg".data rfl
    "thumbnails/".data (lastD (splitChar key.data (Char.ofNat 47)) []) (by decide)]
  rfl

/-- Claim C2, counterexample: a 200x160 source with a 120x160 box is at
least box-sized in both dimensions and has a wider aspect ratio than the box
(200*160 > 120*160 after cross-multiplying), yet the resize step produces
(120, 96): the width is scaled to the box width and the height ends up 96,
not the box height 160 as the claim asserts. -/
theorem claim_C2_counterexample :
    (120 ≤ 200 ∧ 160 ≤ 160) ∧ 200 * 160 > 120 * 160 ∧
    computeResize (200, 160) (120, 160) = (120, 96) ∧
    (computeResize (200, 160) (120, 160)).2 ≠ 160 := by
  decide

/-- Claim C2, amended: for every source image at least as large as the
bounding box in both dimensions and with an aspect ratio strictly wider than
the box's aspect ratio, the resize step scales the image so its WIDTH equals
the box width, with the height scaled proportionally (truncated). -/
theorem claim_C2_amended (w h W H : Nat) (hW : W ≤ w) (hH : H ≤ h)
    (hr : w * H > W * h) :
    computeResize (w, h) (W, H) = (W, h * W / w) := by
  have hlt : pyTupleLt (w, h) (W, H) = false := by
    simp only [pyTupleLt, Bool.or_eq_false_iff, Bool.and_eq_false_iff,
      decide_eq_false_iff_not, not_lt, beq_eq_false_iff_ne]
    omega
  have hcond : ¬ ((W, H).1 * (w, h).2 > (w, h).1 * (W, H).2) := by
    simp only []
    omega
  simp [computeResize, hlt, hcond]

/-- Claim C2 witness: the amended statement at the concrete wide source
200x160 with the default 120x160 box gives content dimensions (120, 96). -/
theorem claim_C2_witness :
    computeResize (200, 160) (120, 160) = (120, 96) :=
  (claim_C2_amended 200 160 120 160 (by decide) (by decide) (by decide)).trans
    (by decide)

/-- Claim C3: for a source image strictly smaller than the bounding box in
both dimensions (and no EXIF rotation), the single object written has a
canvas of exactly the box size, content of the original unscaled size, and a
paste offset that is the floor of half the difference of box and content
size on each axis. -/
theorem claim_C3 (w h W H : Nat) (k b : String) (hw : w < W) (hh : h < H) :
    (resize_image k b (W, H) none (some ⟨w, h, none⟩)).2 =
      [⟨b, dest_key k, "image/png", (W, H), (w, h),
        (((W - w) / 2 : Nat), ((H - h) / 2 : Nat))⟩] := by
  have hlt : pyTupleLt (w, h) (W, H) = true := by
    simp only [pyTupleLt, Bool.or_eq_true, decide_eq_true_eq]
    omega
  have hcr : computeResize (w, h) (W, H) = (w, h) := by
    simp [computeResize, hlt]
  have hfd1 : ((W : Int) - (w : Int)).fdiv 2 = (((W - w) / 2 : Nat) : Int) := by
    rw [Int.fdiv_eq_ediv _ (by norm_num)]
    omega
  have hfd2 : ((H : Int) - (h : Int)).fdiv 2 = (((H - h) / 2 : Nat) : Int) := by
    rw [Int.fdiv_eq_ediv _ (by norm_num)]
    omega
  simp [resize_image, orientedSize, hcr, pasteTopLeft, hfd1, hfd2]

/-- Claim C3 witness: a 50x30 source with the default 120x160 box is pasted
unscaled at offset (35, 65). -/
theorem claim_C3_witness :
    (resize_image "k" "b" (120, 160) none (some ⟨50, 30, none⟩)).2 =
      [⟨"b", "thumbnails/k", "image/png", (120, 160), (50, 30), (35, 65)⟩] :=
  (claim_C3 50 30 120 160 "k" "b" (by decide) (by decide)).trans (by decide)

/-- Claim C7: when the fetch/decode of the source image fails (the `try`
block around `get_object`/`Image.open` raises), `resize_image` returns
`None` and performs no `put_object`, and the surrounding handler likewise
returns `None` with no object written: the failure is swallowed and the
invocation ends successfully. -/
theorem claim_C7 (bucket key : String) (size : Nat × Nat)
    (db : Option String) :
    resize_image key bucket size db none = (none, []) ∧
    lambda_handler_image bucket key none = (none, []) :=
  ⟨rfl, rfl⟩

/-- Claim C4, counterexample: the claim quantifies over every caller
attribute map, but when the map itself contains an "id" key, the dict merge
`{"id": employee_id, **employee_data}` lets the caller's value override the
generated identifier; the item is stored under the caller's id and a Get
with the identifier returned by Create finds nothing (status 404, not a 200
with the record). -/
theorem claim_C4_counterexample :
    statusOf (get_employee "gen"
      (create_employee "gen" [("id", JVal.jstr "oops")] []).table).out = some 404 ∧
    (404 : Nat) ≠ 200 :=
  ⟨rfl, by decide⟩

/-- Claim C4, amended: for every caller attribute map that does not itself
contain an "id" key, Create followed by Get on the identifier returned by
Create yields 200 with a record equal to the generated identifier under "id"
followed by the originally submitted attributes; Create itself returns 201
with just the new identifier. -/
theorem claim_C4_amended (g : String) (data : Item) (t : Table)
    (h : pyDictGet data "id" = none) :
    (create_employee g data t).out =
      .ok (make_response (JVal.obj [("id", JVal.jstr g)]) 201) ∧
    (get_employee g (create_employee g data t).table).out =
      .ok (make_response (JVal.obj (("id", JVal.jstr g) :: data)) 200) := by
  refine ⟨rfl, ?_⟩
  have hmerge : putMergeItem g data = ("id", JVal.jstr g) :: data :=
    putMergeItem_of_no_id h
  have hid : itemIdStr (("id", JVal.jstr g) :: data) = some g := rfl
  have htab : (create_employee g data t).table =
      tablePutItem t (("id", JVal.jstr g) :: data) := by
    simp [create_employee, hmerge]
  have hget : tableGetItem (tablePutItem t (("id", JVal.jstr g) :: data)) g =
      some (("id", JVal.jstr g) :: data) :=
    tableGetItem_putItem t _ g hid
  rw [htab]
  simp [get_employee, get_or_throw, hget]

/-- Claim C4 witness: creating `name: Ada` with generated id "gen" in an
empty table and fetching "gen" returns the submitted attribute plus the id. -/
theorem claim_C4_witness :
    (create_employee "gen" [("name", JVal.jstr "Ada")] []).out =
      .ok (make_response (JVal.obj [("id", JVal.jstr "gen")]) 201) ∧
    (get_employee "gen"
        (create_employee "gen" [("name", JVal.jstr "Ada")] []).table).out =
      .ok (make_response
        (JVal.obj [("id", JVal.jstr "gen"), ("name", JVal.jstr "Ada")]) 200) :=
  claim_C4_amended "gen" [("name", JVal.jstr "Ada")] [] rfl

/-- Claim C5: updating an identifier absent from the table returns 404 (the
not-found error response) and leaves the table unchanged, having performed
only the existence-check read and no write call. -/
theorem claim_C5 (id : String) (ud : Item) (t : Table)
    (h : tableGetItem t id = none) :
    update_employee id ud t =
      ⟨.ok (make_response (errObj (notFoundMessage id)) 404), t, [.getItem id]⟩ ∧
    ∀ c ∈ (update_employee id ud t).calls, isWriteCall c = false := by
  have hg : get_or_throw t id = none := by
    simp [get_or_throw, h]
  have heq : update_employee id ud t =
      ⟨.ok (make_response (errObj (notFoundMessage id)) 404), t, [.getItem id]⟩ := by
    simp [update_employee, hg]
  refine ⟨heq, ?_⟩
  rw [heq]
  intro c hc
  simp at hc
  subst hc
  rfl

/-- Claim C5 witness: PATCH data on the id "e1" against the empty table. -/
theorem claim_C5_witness :
    update_employee "e1" [("attribute", JVal.jstr "name"), ("value", JVal.jstr "Bo")] [] =
      ⟨.ok (make_response (errObj (notFoundMessage "e1")) 404), [], [.getItem "e1"]⟩ ∧
    ∀ c ∈ (update_employee "e1"
        [("attribute", JVal.jstr "name"), ("value", JVal.jstr "Bo")] []).calls,
      isWriteCall c = false :=
  claim_C5 "e1" [("attribute", JVal.jstr "name"), ("value", JVal.jstr "Bo")] [] rfl

/-- Claim C6, counterexample: deleting an existing identifier does return
status 204 and does remove the record, but the response body is the JSON
serialization of Python `None` — the four-character string "null" — not an
empty body as the claim states. -/
theorem claim_C6_counterexample :
    (delete_employee "e1" [[("id", JVal.jstr "e1")]]).out =
      .ok ⟨204, "application/json", "null"⟩ ∧
    ("null" : String) ≠ "" :=
  ⟨rfl, by decide⟩

/-- Claim C6, amended: for every identifier present in the table, Delete
removes the record (a subsequent lookup finds nothing) and returns status
204 whose body is the JSON serialization of null, the string "null" (not an
empty string). -/
theorem claim_C6_amended (id : String) (t : Table) (emp : Item)
    (h : tableGetItem t id = some emp) :
    delete_employee id t =
      ⟨.ok (make_response JVal.null 204), tableDeleteItem t id,
       [.getItem id, .deleteItem id]⟩ ∧
    (make_response JVal.null 204).body = "null" ∧
    tableGetItem (tableDeleteItem t id) id = none := by
  have hg : get_or_throw t id = some emp := get_or_throw_of_getItem h
  refine ⟨?_, rfl, tableGetItem_deleteItem t id⟩
  simp [delete_employee, hg]

/-- Claim C6 witness: deleting "e1" from the one-record table. -/
theorem claim_C6_witness :
    delete_employee "e1" [[("id", JVal.jstr "e1")]] =
      ⟨.ok (make_response JVal.null 204), [], [.getItem "e1", .deleteItem "e1"]⟩ ∧
    tableGetItem (tableDeleteItem [[("id", JVal.jstr "e1")]] "e1") "e1" = none :=
  ⟨(claim_C6_amended "e1" [[("id", JVal.jstr "e1")]] [("id", JVal.jstr "e1")] rfl).1,
   (claim_C6_amended "e1" [[("id", JVal.jstr "e1")]] [("id", JVal.jstr "e1")] rfl).2.2⟩

/-- Claim C8: any method/path pair that matches none of the five routes and
has no "info" path segment falls through every branch of the router to the
501 "Method Not Implemented" response, with the table untouched and zero
calls made against it.  Each hypothesis is the router's own branch condition
being false. -/
theorem claim_C8 (ev : HttpEvent) (g : String) (t : Table)
    (hInfo : ((pySplitStr ev.path (Char.ofNat 47)).contains "info") = false)
    (h1 : (ev.method == "GET" && ev.path == "/employees") = false)
    (h2 : (ev.method == "GET" && pyStartsWith ev.path "/employees/") = false)
    (h3 : (ev.method == "POST" && ev.path == "/employees") = false)
    (h4 : (ev.method == "PATCH" && pyStartsWith ev.path "/employees/") = false)
    (h5 : (ev.method == "DELETE" && pyStartsWith ev.path "/employees/") = false) :
    lambda_handler ev g t =
      ⟨.ok (make_response (errObj "Method Not Implemented") 501), t, []⟩ := by
  have hInfo' : ¬ ("info" ∈ pySplitStr ev.path (Char.ofNat 47)) := by
    simpa using hInfo
  simp [lambda_handler, hInfo, hInfo', h1, h2, h3, h4, h5]

/-- Claim C8 witness: `PUT /employees` yields 501 with no table calls. -/
theorem claim_C8_witness :
    lambda_handler ⟨"PUT", "/employees", [], JVal.null⟩ "g" [] =
      ⟨.ok (make_response (errObj "Method Not Implemented") 501), [], []⟩ :=
  claim_C8 ⟨"PUT", "/employees", [], JVal.null⟩ "g" []
    (by decide) (by decide) (by decide) (by decide) (by decide) (by decide)

/-- Claim C9: the `DecimalEncoder` turns a decimal with no fractional part
(reduced denominator 1) into the integer of the same value — so its JSON
rendering coincides with that of the corresponding int — and any other
decimal into a float. -/
theorem claim_C9 (d : Rat) :
    (d.den = 1 →
      DecimalEncoder_default d = JNum.jint d.num ∧
      ((d.num : Rat) = d) ∧
      jsonDumps (JVal.jdec d) = jsonDumps (JVal.jint d.num)) ∧
    (d.den ≠ 1 → DecimalEncoder_default d = JNum.jfloat d) := by
  constructor
  · intro h
    have he : DecimalEncoder_default d = JNum.jint d.num := by
      simp [DecimalEncoder_default, h]
    refine ⟨he, (Rat.den_eq_one_iff d).mp h, ?_⟩
    simp [jsonDumps, he]
  · intro h
    simp [DecimalEncoder_default, h]

/-- Claim C9 witness: the exact decimal 7 encodes as the integer 7 (with
identical JSON text), the inexact decimal 3/2 as a float. -/
theorem claim_C9_witness :
    DecimalEncoder_default 7 = JNum.jint 7 ∧
    jsonDumps (JVal.jdec 7) = jsonDumps (JVal.jint 7) ∧
    DecimalEncoder_default (mkRat 3 2) = JNum.jfloat (mkRat 3 2) := by
  refine ⟨?_, ?_, (claim_C9 (mkRat 3 2)).2 (by decide)⟩
  · exact ((claim_C9 7).1 (by decide)).1.trans (by decide)
  · exact (((claim_C9 7).1 (by decide)).2.2).trans (by rfl)

/-- Claim C10: a PATCH on an existing identifier whose body lacks the
"attribute" or the "value" key raises `KeyError` while building the
`update_item` arguments; `KeyError` is neither `EmployeeNotFoundError` nor
`ClientError`, so it escapes uncaught (no 404, no 500, no response at all)
and nothing is written. -/
theorem claim_C10 (id : String) (ud : Item) (t : Table) (emp : Item)
    (hex : tableGetItem t id = some emp)
    (hmiss : pyDictGet ud "attribute" = none ∨ pyDictGet ud "value" = none) :
    update_employee id ud t =
      ⟨.raised (.keyError
          (if (pyDictGet ud "attribute").isNone then "attribute" else "value")),
       t, [.getItem id]⟩ := by
  have hg : get_or_throw t id = some emp := get_or_throw_of_getItem hex
  cases ha : pyDictGet ud "attribute" with
  | none => simp [update_employee, hg, ha]
  | some a =>
    have hv : pyDictGet ud "value" = none := by
      rcases hmiss with hm | hm
      · rw [ha] at hm
        exact absurd hm (by simp)
      · exact hm
    simp [update_employee, hg, ha, hv]

/-- Claim C10 witness: PATCH with an empty body on the existing id "e1"
raises `KeyError("attribute")` and performs no write. -/
theorem claim_C10_witness :
    update_employee "e1" [] [[("id", JVal.jstr "e1")]] =
      ⟨.raised (.keyError "attribute"), [[("id", JVal.jstr "e1")]],
       [.getItem "e1"]⟩ :=
  claim_C10 "e1" [] [[("id", JVal.jstr "e1")]] [("id", JVal.jstr "e1")]
    rfl (Or.inl rfl)

end AwsProjects
